import Mathlib

/-!
Verification of the live run-tracking and geodesic metrics engine of the
"Corrida dos Tronos" running app.

The tracker lifecycle (`startTracking`, the timer-tick callback, the
`watchPosition` callback, `stopTracking`, `saveRunToHistory`) is embedded from
`src/components/ResultDisplay.tsx`; history loading (`loadHistory`) from
`src/components/RunHistory.tsx`; the data shapes from the repository's type
declarations.  JavaScript numbers are modelled as real numbers, the
`elapsedTimeSeconds` counter as a natural number, ISO-8601 date strings by the
epoch timestamp they denote (ISO-8601 strings from one clock compare exactly
like their timestamps), and `localStorage` under the `runHistory` key as an
explicit store value that distinguishes a missing key, unparseable contents,
and parseable contents, together with a write-failure flag (quota errors).
Asynchronous callbacks are modelled as state-transition functions applied in
the order the events fire.

The geodesic utility module `src/utils/geoUtils.ts` is imported by the sources
but its file is not part of the repository snapshot, so `calculateDistance`
and `calculatePace` are modelled from the specification text (they are marked
as such below).
-/

open Real

/-- Modelled from the spec: `src/utils/geoUtils.ts` is imported by the sources
but missing from the repository snapshot.  Great-circle distance in kilometers
between two decimal-degree coordinates via the haversine formula on a sphere
of mean radius 6371 km: with `dLat` and `dLng` the coordinate differences in
radians and `a` the haversine of the central angle, the distance is
`2 * R * arcsin (sqrt a)`. -/
noncomputable def calculateDistance (lat1 lng1 lat2 lng2 : ℝ) : ℝ :=
  2 * 6371 *
    Real.arcsin (Real.sqrt
      (Real.sin ((lat2 - lat1) * Real.pi / 180 / 2) ^ 2 +
        Real.cos (lat1 * Real.pi / 180) * Real.cos (lat2 * Real.pi / 180) *
          Real.sin ((lng2 - lng1) * Real.pi / 180 / 2) ^ 2))

/-- Left-pad a component to two digits, as in the pace string `mm:ss`. -/
def pad2 (n : ℤ) : String :=
  if n < 10 then "0" ++ toString n else toString n

/-- Modelled from the spec: `src/utils/geoUtils.ts` is missing from the
repository snapshot.  Pace per kilometer: the sentinel `"--:--"` when
`distanceKm ≤ 0`, otherwise seconds-per-kilometer `elapsedSeconds / distanceKm`
truncated to whole seconds and rendered as zero-padded `minutes:seconds`. -/
noncomputable def calculatePace (distanceKm : ℝ) (elapsedSeconds : ℕ) : String :=
  if distanceKm ≤ 0 then "--:--"
  else
    let totalSeconds : ℤ := ⌊(elapsedSeconds : ℝ) / distanceKm⌋
    pad2 (totalSeconds / 60) ++ ":" ++ pad2 (totalSeconds % 60)

lemma calculateDistance_nonneg (lat1 lng1 lat2 lng2 : ℝ) :
    0 ≤ calculateDistance lat1 lng1 lat2 lng2 := by
  unfold calculateDistance
  have h : 0 ≤ Real.arcsin (Real.sqrt
      (Real.sin ((lat2 - lat1) * Real.pi / 180 / 2) ^ 2 +
        Real.cos (lat1 * Real.pi / 180) * Real.cos (lat2 * Real.pi / 180) *
          Real.sin ((lng2 - lng1) * Real.pi / 180 / 2) ^ 2)) :=
    Real.arcsin_nonneg.mpr (Real.sqrt_nonneg _)
  have h2 : (0 : ℝ) ≤ 2 * 6371 := by norm_num
  exact mul_nonneg h2 h

lemma calculateDistance_self (lat lng : ℝ) :
    calculateDistance lat lng lat lng = 0 := by
  unfold calculateDistance
  simp

lemma calculateDistance_comm (lat1 lng1 lat2 lng2 : ℝ) :
    calculateDistance lat1 lng1 lat2 lng2 = calculateDistance lat2 lng2 lat1 lng1 := by
  unfold calculateDistance
  have h : ∀ x y : ℝ,
      Real.sin ((x - y) * Real.pi / 180 / 2) ^ 2 =
        Real.sin ((y - x) * Real.pi / 180 / 2) ^ 2 := by
    intro x y
    rw [show (x - y) * Real.pi / 180 / 2 = -((y - x) * Real.pi / 180 / 2) by ring,
      Real.sin_neg]
    ring
  rw [h lat2 lat1, h lng2 lng1,
    mul_comm (Real.cos (lat1 * Real.pi / 180)) (Real.cos (lat2 * Real.pi / 180))]

/-- A position fix: decimal-degree latitude/longitude, as in `types.ts`. -/
structure Coordinates where
  latitude : ℝ
  longitude : ℝ

/-- The live run metrics, as in `types.ts`. -/
structure RunMetrics where
  distanceKm : ℝ
  elapsedTimeSeconds : ℕ
  currentPace : String
  path : List Coordinates
  isTracking : Bool

/-- A persisted run record, as in `types.ts`.  The ISO-8601 `date` string is
represented by the epoch timestamp it denotes. -/
structure RunHistoryEntry where
  id : String
  date : ℕ
  placeName : String
  metrics : RunMetrics

/-- The `localStorage` slot under the key `runHistory`.  `contents = none`
models a missing key, `contents = some none` a present but unparseable value,
`contents = some (some l)` a value that parses to the entry list `l`.
`writeFails` models `setItem` throwing (e.g. storage quota exceeded). -/
structure Store where
  contents : Option (Option (List RunHistoryEntry))
  writeFails : Bool

/-- The tracker-relevant state of the `ResultDisplay` component: the
`isTracking` flag, the `runMetrics` state, the `lastLocationRef` ref, the
selected destination's name, the ambient user coordinates lifted via
`onUpdateCoordinates`, and the persistent store. -/
structure TrackerState where
  isTracking : Bool
  runMetrics : RunMetrics
  lastLocation : Option Coordinates
  selectedPlace : Option String
  ambientCoords : Option Coordinates
  store : Store

/-- `startTracking` (ResultDisplay.tsx, lines 88–118): set the tracking flag,
reset the metrics to a fresh run seeded with the current user position if
available, and record that position as the last-known location. -/
def startTracking (userCoordinates : Option Coordinates) (s : TrackerState) :
    TrackerState :=
  { s with
    isTracking := true
    runMetrics :=
      { distanceKm := 0
        elapsedTimeSeconds := 0
        currentPace := "--:--"
        path := match userCoordinates with
                | some c => [c]
                | none => []
        isTracking := true }
    lastLocation := userCoordinates }

/-- The `setInterval` callback installed by `startTracking` (lines 108–117):
one timer tick adds one second and recomputes the pace from the current
distance and the new elapsed time. -/
noncomputable def timerTick (s : TrackerState) : TrackerState :=
  { s with
    runMetrics :=
      { s.runMetrics with
        elapsedTimeSeconds := s.runMetrics.elapsedTimeSeconds + 1
        currentPace :=
          calculatePace s.runMetrics.distanceKm
            (s.runMetrics.elapsedTimeSeconds + 1) } }

/-- The `watchPosition` success callback (lines 121–155): every fix first
updates the ambient user coordinates (`onUpdateCoordinates`); then, with a
prior last-known position, the fix is accepted only when its distance exceeds
the 0.005 km noise threshold, in which case the distance accumulates, the fix
is appended to the path and becomes the last-known position; without a prior
position the fix seeds the path and the last-known position. -/
noncomputable def positionUpdate (newCoords : Coordinates) (s : TrackerState) :
    TrackerState :=
  match s.lastLocation with
  | some last =>
      if calculateDistance last.latitude last.longitude
          newCoords.latitude newCoords.longitude > 0.005 then
        { s with
          ambientCoords := some newCoords
          runMetrics :=
            { s.runMetrics with
              distanceKm := s.runMetrics.distanceKm +
                calculateDistance last.latitude last.longitude
                  newCoords.latitude newCoords.longitude
              path := s.runMetrics.path ++ [newCoords] }
          lastLocation := some newCoords }
      else { s with ambientCoords := some newCoords }
  | none =>
      { s with
        ambientCoords := some newCoords
        lastLocation := some newCoords
        runMetrics := { s.runMetrics with path := [newCoords] } }

/-- The history entry built by `saveRunToHistory` (lines 51–56): a fresh id
from `Date.now().toString()`, the current timestamp as date, the selected
destination's name or the "Corrida Livre" fallback, and the metrics
snapshot. -/
def mkHistoryEntry (now : ℕ) (s : TrackerState) : RunHistoryEntry :=
  { id := toString now
    date := now
    placeName := s.selectedPlace.getD "Corrida Livre"
    metrics := s.runMetrics }

/-- `localStorage.getItem('runHistory')` followed by `JSON.parse` (line 58–59):
a missing key yields the empty list, unparseable contents throw. -/
def readHistory (st : Store) : Except Unit (List RunHistoryEntry) :=
  match st.contents with
  | none => Except.ok []
  | some none => Except.error ()
  | some (some l) => Except.ok l

/-- `localStorage.setItem('runHistory', JSON.stringify ...)` (line 62): the
write either replaces the stored collection or throws. -/
def writeHistory (st : Store) (l : List RunHistoryEntry) : Except Unit Store :=
  if st.writeFails then Except.error ()
  else Except.ok { st with contents := some (some l) }

/-- `saveRunToHistory` (lines 47–68): skip persistence entirely when the
metrics show zero distance and zero elapsed time; otherwise read-modify-write
the stored collection, appending one fresh entry; any storage error (corrupt
prior contents or a failing write) is caught and leaves the state unchanged. -/
noncomputable def saveRunToHistory (now : ℕ) (s : TrackerState) : TrackerState :=
  if s.runMetrics.distanceKm = 0 ∧ s.runMetrics.elapsedTimeSeconds = 0 then s
  else
    match readHistory s.store with
    | Except.error _ => s
    | Except.ok history =>
        match writeHistory s.store (history ++ [mkHistoryEntry now s]) with
        | Except.error _ => s
        | Except.ok st => { s with store := st }

/-- `stopTracking` (lines 70–86): release the watch and the timer, save the
run when a session was actually tracking, and clear the tracking flag. -/
noncomputable def stopTracking (now : ℕ) (s : TrackerState) : TrackerState :=
  if s.isTracking then
    { saveRunToHistory now s with isTracking := false }
  else
    { s with isTracking := false }

/-- Newest-first comparison used by the history sort. -/
def newestFirst (a b : RunHistoryEntry) : Prop := b.date ≤ a.date

instance : DecidableRel newestFirst := fun a b => Nat.decLe b.date a.date

/-- `loadHistory` (RunHistory.tsx, lines 9–20): read and parse the stored
collection and sort it by date descending; a missing key or a parse error
leaves the initial empty history in place. -/
def loadHistory (st : Store) : List RunHistoryEntry :=
  match st.contents with
  | none => []
  | some none => []
  | some (some parsed) => List.insertionSort newestFirst parsed

/-- The initial component state (lines 25–36): not tracking, zeroed metrics,
no last location, no selected destination, over a given store. -/
def initialState (st : Store) : TrackerState :=
  { isTracking := false
    runMetrics :=
      { distanceKm := 0
        elapsedTimeSeconds := 0
        currentPace := "--:--"
        path := []
        isTracking := false }
    lastLocation := none
    selectedPlace := none
    ambientCoords := none
    store := st }

/-- A store with no `runHistory` key and working writes. -/
def emptyStore : Store := { contents := none, writeFails := false }

/-- A sample session: started at the origin fix, one timer tick elapsed. -/
noncomputable def sampleRun : TrackerState :=
  timerTick (startTracking (some ⟨0, 0⟩) (initialState emptyStore))

instance : IsTotal RunHistoryEntry newestFirst :=
  ⟨fun a b => le_total b.date a.date⟩

instance : IsTrans RunHistoryEntry newestFirst :=
  ⟨fun _ _ _ hab hbc => le_trans hbc hab⟩

/-- Two coordinates strictly farther apart than the 5-meter noise threshold. -/
def farApart (a b : Coordinates) : Prop :=
  0.005 < calculateDistance a.latitude a.longitude b.latitude b.longitude

/-- The structural invariant of a tracking session: the last-known location is
the final path entry (and the path is empty exactly when there is none), and
consecutive path points are strictly farther apart than the noise threshold. -/
def SessionInv (s : TrackerState) : Prop :=
  (s.lastLocation = none → s.runMetrics.path = []) ∧
  (∀ c, s.lastLocation = some c → s.runMetrics.path.getLast? = some c) ∧
  List.Chain' farApart s.runMetrics.path

lemma saveRunToHistory_parts (now : ℕ) (s : TrackerState) :
    (saveRunToHistory now s).runMetrics = s.runMetrics ∧
    (saveRunToHistory now s).lastLocation = s.lastLocation ∧
    (saveRunToHistory now s).isTracking = s.isTracking ∧
    (saveRunToHistory now s).selectedPlace = s.selectedPlace := by
  unfold saveRunToHistory
  split
  · exact ⟨rfl, rfl, rfl, rfl⟩
  · split
    · exact ⟨rfl, rfl, rfl, rfl⟩
    · split
      · exact ⟨rfl, rfl, rfl, rfl⟩
      · exact ⟨rfl, rfl, rfl, rfl⟩

lemma stopTracking_metrics (now : ℕ) (s : TrackerState) :
    (stopTracking now s).runMetrics = s.runMetrics ∧
    (stopTracking now s).lastLocation = s.lastLocation := by
  unfold stopTracking
  split
  · exact ⟨(saveRunToHistory_parts now s).1, (saveRunToHistory_parts now s).2.1⟩
  · exact ⟨rfl, rfl⟩

lemma saveRunToHistory_store_error (now : ℕ) (s : TrackerState)
    (h : readHistory s.store = Except.error () ∨ s.store.writeFails = true) :
    (saveRunToHistory now s).store = s.store := by
  unfold saveRunToHistory
  split
  · rfl
  · rcases h with h | h
    · rw [h]
    · cases hr : readHistory s.store with
      | error e => rfl
      | ok l =>
          unfold writeHistory
          rw [h]
          simp

lemma stopTracking_store_of_save (now : ℕ) (s : TrackerState) :
    (stopTracking now s).store = s.store ∨
    (stopTracking now s).store = (saveRunToHistory now s).store := by
  unfold stopTracking
  split
  · exact Or.inr rfl
  · exact Or.inl rfl

lemma stop_append_entry (now : ℕ) (s : TrackerState) (l : List RunHistoryEntry)
    (ht : s.isTracking = true)
    (hnz : ¬(s.runMetrics.distanceKm = 0 ∧ s.runMetrics.elapsedTimeSeconds = 0))
    (hr : readHistory s.store = Except.ok l)
    (hw : s.store.writeFails = false) :
    (stopTracking now s).store.contents =
      some (some (l ++ [mkHistoryEntry now s])) := by
  unfold stopTracking
  rw [if_pos ht]
  show (saveRunToHistory now s).store.contents = _
  unfold saveRunToHistory
  rw [if_neg hnz, hr]
  unfold writeHistory
  rw [hw]
  simp

lemma sessionInv_start (uc : Option Coordinates) (s : TrackerState) :
    SessionInv (startTracking uc s) := by
  cases uc with
  | none =>
      refine ⟨fun _ => rfl, fun c hc => ?_, List.chain'_nil⟩
      simp [startTracking] at hc
  | some c0 =>
      refine ⟨fun h => ?_, fun c hc => ?_, List.chain'_singleton c0⟩
      · simp [startTracking] at h
      · simp only [startTracking] at hc ⊢
        simp only [Option.some.injEq] at hc
        subst hc
        rfl

lemma sessionInv_tick (s : TrackerState) (h : SessionInv s) :
    SessionInv (timerTick s) := h

lemma positionUpdate_cases (q : Coordinates) (s : TrackerState)
    (h : SessionInv s) :
    SessionInv (positionUpdate q s) ∧
    s.runMetrics.distanceKm ≤ (positionUpdate q s).runMetrics.distanceKm ∧
    ∃ t, (positionUpdate q s).runMetrics.path = s.runMetrics.path ++ t := by
  obtain ⟨hnone, hsome, hchain⟩ := h
  cases hl : s.lastLocation with
  | none =>
      simp only [positionUpdate, hl]
      refine ⟨⟨fun hc => by simp at hc, fun c hc => ?_, List.chain'_singleton q⟩,
        le_refl _, [q], ?_⟩
      · simp only [Option.some.injEq] at hc
        subst hc
        rfl
      · show [q] = s.runMetrics.path ++ [q]
        rw [hnone hl]
        rfl
  | some last =>
      simp only [positionUpdate, hl]
      by_cases hd : calculateDistance last.latitude last.longitude
          q.latitude q.longitude > 0.005
      · rw [if_pos hd]
        refine ⟨⟨fun hc => by simp at hc, fun c hc => ?_, ?_⟩, ?_, [q], rfl⟩
        · simp only [Option.some.injEq] at hc
          subst hc
          exact List.getLast?_concat _
        · rw [List.chain'_append]
          refine ⟨hchain, List.chain'_singleton q, fun x hx y hy => ?_⟩
          have hx' : last = x := by
            have hg := hsome last hl
            rw [hg] at hx
            simpa using hx
          have hy' : q = y := by simpa using hy
          subst hx'
          subst hy'
          exact hd
        · have hpos : (0:ℝ) < calculateDistance last.latitude last.longitude
              q.latitude q.longitude := lt_trans (by norm_num) hd
          show s.runMetrics.distanceKm ≤ s.runMetrics.distanceKm + _
          linarith
      · rw [if_neg hd]
        refine ⟨⟨fun hc => by simp at hc, fun c hc => ?_, hchain⟩, le_refl _,
          [], (List.append_nil _).symm⟩
        simp only [Option.some.injEq] at hc
        subst hc
        exact hsome last hl

lemma sessionInv_stop (now : ℕ) (s : TrackerState) (h : SessionInv s) :
    SessionInv (stopTracking now s) := by
  obtain ⟨hnone, hsome, hchain⟩ := h
  obtain ⟨hm, hl⟩ := stopTracking_metrics now s
  refine ⟨fun hc => ?_, fun c hc => ?_, ?_⟩
  · rw [hm]
    exact hnone (hl ▸ hc)
  · rw [hm]
    exact hsome c (hl ▸ hc)
  · rw [hm]
    exact hchain

/-- The session states reachable from a `startTracking` call by any sequence
of timer ticks and position fixes (the operations that can fire while a
session is live). -/
inductive SessionReach : TrackerState → Prop
  | start (uc : Option Coordinates) (s : TrackerState) :
      SessionReach (startTracking uc s)
  | tick {s : TrackerState} :
      SessionReach s → SessionReach (timerTick s)
  | fix {s : TrackerState} (q : Coordinates) :
      SessionReach s → SessionReach (positionUpdate q s)

lemma sessionReach_flags {s : TrackerState} (h : SessionReach s) :
    s.runMetrics.isTracking = true ∧ s.isTracking = true := by
  induction h with
  | start uc s => exact ⟨rfl, rfl⟩
  | tick _ ih => exact ih
  | fix q _ ih =>
      rename_i s _
      cases hl : s.lastLocation with
      | none => simpa only [positionUpdate, hl] using ih
      | some last =>
          simp only [positionUpdate, hl]
          split
          · exact ih
          · exact ih

lemma digitChar_inj_lt :
    ∀ a < 10, ∀ b < 10, Nat.digitChar a = Nat.digitChar b → a = b := by
  decide

lemma toDigitsCore_eq_digits :
    ∀ (fuel n : ℕ) (ds : List Char), n < fuel → n ≠ 0 →
      Nat.toDigitsCore 10 fuel n ds =
        ((Nat.digits 10 n).map Nat.digitChar).reverse ++ ds := by
  intro fuel
  induction fuel with
  | zero => intro n ds h; omega
  | succ fuel ih =>
      intro n ds h hn
      rw [Nat.toDigitsCore]
      have hdig : Nat.digits 10 n = n % 10 :: Nat.digits 10 (n / 10) :=
        Nat.digits_def' (by norm_num) (Nat.pos_of_ne_zero hn)
      by_cases hdiv : n / 10 = 0
      · rw [if_pos hdiv, hdig, hdiv]
        simp
      · rw [if_neg hdiv]
        have hlt : n / 10 < fuel :=
          lt_of_lt_of_le (Nat.div_lt_self (Nat.pos_of_ne_zero hn) (by norm_num))
            (Nat.lt_succ_iff.mp h)
        rw [ih (n / 10) (Nat.digitChar (n % 10) :: ds) hlt hdiv, hdig]
        simp

lemma toDigits_ten_eq (n : ℕ) (hn : n ≠ 0) :
    Nat.toDigits 10 n = ((Nat.digits 10 n).map Nat.digitChar).reverse := by
  unfold Nat.toDigits
  rw [toDigitsCore_eq_digits (n + 1) n [] (Nat.lt_succ_self n) hn,
    List.append_nil]

lemma map_digitChar_inj :
    ∀ l1 l2 : List ℕ, (∀ x ∈ l1, x < 10) → (∀ x ∈ l2, x < 10) →
      l1.map Nat.digitChar = l2.map Nat.digitChar → l1 = l2 := by
  intro l1
  induction l1 with
  | nil =>
      intro l2 _ _ h
      cases l2 with
      | nil => rfl
      | cons b m => simp at h
  | cons a l ih =>
      intro l2 h1 h2 h
      cases l2 with
      | nil => simp at h
      | cons b m =>
          simp only [List.map_cons, List.cons.injEq] at h
          have ha : a = b :=
            digitChar_inj_lt a (h1 a (by simp)) b (h2 b (by simp)) h.1
          have hm : l = m :=
            ih m (fun x hx => h1 x (by simp [hx]))
              (fun x hx => h2 x (by simp [hx])) h.2
          rw [ha, hm]

lemma natRepr_injective : ∀ m n : ℕ, Nat.repr m = Nat.repr n → m = n := by
  have hzero : ∀ n : ℕ, n ≠ 0 →
      Nat.toDigits 10 n ≠ Nat.toDigits 10 0 := by
    intro n hn hcontra
    rw [toDigits_ten_eq n hn, show Nat.toDigits 10 0 = ['0'] from rfl] at hcontra
    have hmap : (Nat.digits 10 n).map Nat.digitChar = ['0'] := by
      have := congrArg List.reverse hcontra
      simpa using this
    have hdig : Nat.digits 10 n = [0] := by
      cases hd : Nat.digits 10 n with
      | nil => rw [hd] at hmap; simp at hmap
      | cons d t =>
          rw [hd] at hmap
          simp only [List.map_cons, List.cons.injEq] at hmap
          have ht : t = [] := List.map_eq_nil_iff.mp hmap.2
          have hdlt : d < 10 :=
            Nat.digits_lt_base (by norm_num) (hd ▸ List.mem_cons_self d t)
          have hd0 : d = 0 :=
            digitChar_inj_lt d hdlt 0 (by norm_num)
              (hmap.1.trans (by decide : ('0' : Char) = Nat.digitChar 0))
          rw [ht, hd0]
    have : n = 0 := by
      have hofd := Nat.ofDigits_digits 10 n
      rw [hdig] at hofd
      simpa [Nat.ofDigits] using hofd.symm
    exact hn this
  intro m n h
  have hd : Nat.toDigits 10 m = Nat.toDigits 10 n := by
    have hdata := congrArg String.data h
    simpa [Nat.repr, List.asString] using hdata
  by_cases hm : m = 0
  · by_cases hn : n = 0
    · rw [hm, hn]
    · exact absurd (hm ▸ hd).symm (hzero n hn)
  · by_cases hn : n = 0
    · exact absurd (hn ▸ hd) (hzero m hm)
    · rw [toDigits_ten_eq m hm, toDigits_ten_eq n hn] at hd
      have hmap := List.reverse_injective hd
      have hdig := map_digitChar_inj (Nat.digits 10 m) (Nat.digits 10 n)
        (fun x hx => Nat.digits_lt_base (by norm_num) hx)
        (fun x hx => Nat.digits_lt_base (by norm_num) hx) hmap
      calc m = Nat.ofDigits 10 (Nat.digits 10 m) := (Nat.ofDigits_digits 10 m).symm
        _ = Nat.ofDigits 10 (Nat.digits 10 n) := by rw [hdig]
        _ = n := Nat.ofDigits_digits 10 n

lemma calculateDistance_boundary :
    calculateDistance 0 0 0 (9 / 10 / (6371 * Real.pi)) = 0.005 := by
  unfold calculateDistance
  have harg : (9 / 10 / (6371 * Real.pi) - 0) * Real.pi / 180 / 2
      = 1 / 2548400 := by
    field_simp
    ring
  rw [harg]
  have h0 : Real.sin ((0 - 0 : ℝ) * Real.pi / 180 / 2) = 0 := by norm_num
  rw [h0]
  have hcos : Real.cos ((0 : ℝ) * Real.pi / 180) = 1 := by norm_num
  rw [hcos]
  have hsin_nonneg : 0 ≤ Real.sin (1 / 2548400 : ℝ) := by
    apply Real.sin_nonneg_of_nonneg_of_le_pi
    · norm_num
    · nlinarith [Real.pi_gt_three]
  have hsq : Real.sqrt ((0:ℝ) ^ 2 + 1 * 1 * Real.sin (1 / 2548400 : ℝ) ^ 2)
      = Real.sin (1 / 2548400 : ℝ) := by
    rw [show (0:ℝ) ^ 2 + 1 * 1 * Real.sin (1 / 2548400 : ℝ) ^ 2
        = Real.sin (1 / 2548400 : ℝ) ^ 2 by ring]
    rw [Real.sqrt_sq_eq_abs, abs_of_nonneg hsin_nonneg]
  rw [hsq]
  rw [Real.arcsin_sin (by nlinarith [Real.pi_gt_three])
    (by nlinarith [Real.pi_gt_three])]
  norm_num

/-- C9: `calculateDistance` is nonnegative for all coordinate inputs, exactly
zero on identical points, and symmetric in its two endpoints. -/
theorem C9_distance_properties :
    (∀ lat1 lng1 lat2 lng2 : ℝ, 0 ≤ calculateDistance lat1 lng1 lat2 lng2) ∧
    (∀ lat lng : ℝ, calculateDistance lat lng lat lng = 0) ∧
    (∀ lat1 lng1 lat2 lng2 : ℝ,
      calculateDistance lat1 lng1 lat2 lng2 =
        calculateDistance lat2 lng2 lat1 lng1) :=
  ⟨calculateDistance_nonneg, calculateDistance_self, calculateDistance_comm⟩

/-- C8: `calculatePace` returns the `"--:--"` sentinel for every
`distanceKm ≤ 0`; otherwise it renders the truncated whole minutes and seconds
of `elapsedSeconds / distanceKm` zero-padded; `calculatePace 10 3600` is
`"06:00"`, and `calculatePace 3 500` is `"02:46"` (500/3 ≈ 166.67 s/km is
truncated, not rounded, to 166 s). -/
theorem C8_calculate_pace :
    (∀ (d : ℝ) (t : ℕ), d ≤ 0 → calculatePace d t = "--:--") ∧
    (∀ (d : ℝ) (t : ℕ), 0 < d → calculatePace d t =
      pad2 (⌊(t : ℝ) / d⌋ / 60) ++ ":" ++ pad2 (⌊(t : ℝ) / d⌋ % 60)) ∧
    calculatePace 10 3600 = "06:00" ∧
    calculatePace 3 500 = "02:46" := by
  refine ⟨fun d t h => ?_, fun d t h => ?_, ?_, ?_⟩
  · unfold calculatePace
    rw [if_pos h]
  · unfold calculatePace
    rw [if_neg (not_le.mpr h)]
  · unfold calculatePace
    rw [if_neg (by norm_num : ¬ (10:ℝ) ≤ 0)]
    have h : ⌊((3600:ℕ) : ℝ) / 10⌋ = 360 := by
      rw [Int.floor_eq_iff]
      constructor
      · norm_num
      · norm_num
    simp only [h]
    decide
  · unfold calculatePace
    rw [if_neg (by norm_num : ¬ (3:ℝ) ≤ 0)]
    have h : ⌊((500:ℕ) : ℝ) / 3⌋ = 166 := by
      rw [Int.floor_eq_iff]
      constructor
      · norm_num
      · norm_num
    simp only [h]
    decide

/-- Witness for C8 at concrete inputs: a nonpositive distance yields the
sentinel. -/
theorem C8_calculate_pace_witness : calculatePace (-2) 100 = "--:--" :=
  C8_calculate_pace.1 (-2) 100 (by norm_num)

/-- C1, counterexample: with last-known position `(0, 0)`, the fix at
`(0, 0.9/(6371π))` lies at haversine distance exactly 0.005 km — not below
the threshold, so by the claim it should be accepted and add 0.005 km —
yet the tracker discards it: distance stays 0 (≠ 0 + 0.005), the path keeps
its single seeded point, and the last-known position is unchanged. -/
theorem C1_noise_filter_counterexample :
    calculateDistance 0 0 0 (9 / 10 / (6371 * Real.pi)) = 0.005 ∧
    ¬ calculateDistance 0 0 0 (9 / 10 / (6371 * Real.pi)) < 0.005 ∧
    (positionUpdate ⟨0, 9 / 10 / (6371 * Real.pi)⟩
        (startTracking (some ⟨0, 0⟩)
          (initialState emptyStore))).runMetrics.distanceKm = 0 ∧
    (positionUpdate ⟨0, 9 / 10 / (6371 * Real.pi)⟩
        (startTracking (some ⟨0, 0⟩)
          (initialState emptyStore))).runMetrics.path.length = 1 ∧
    (positionUpdate ⟨0, 9 / 10 / (6371 * Real.pi)⟩
        (startTracking (some ⟨0, 0⟩)
          (initialState emptyStore))).lastLocation = some ⟨0, 0⟩ ∧
    (0 : ℝ) ≠ 0 + 0.005 := by
  have hb := calculateDistance_boundary
  have hnotgt : ¬ calculateDistance 0 0 0 (9 / 10 / (6371 * Real.pi)) > 0.005 := by
    rw [hb]
    exact lt_irrefl _
  refine ⟨hb, by rw [hb]; exact lt_irrefl _, ?_, ?_, ?_, by norm_num⟩
  all_goals
    simp only [positionUpdate, startTracking, initialState, emptyStore]
    rw [if_neg hnotgt]
  all_goals rfl

/-- C1, amended: with a prior last-known position, a fix whose haversine
distance from it is at most 0.005 km (not merely strictly below) is discarded
— `distanceKm`, `path` and the last-known position are unchanged — while a
fix strictly farther than 0.005 km adds that distance to `distanceKm`,
appends the fix to `path`, and becomes the last-known position. -/
theorem C1_noise_filter_amended (s : TrackerState) (q c : Coordinates)
    (h : s.lastLocation = some c) :
    (calculateDistance c.latitude c.longitude q.latitude q.longitude ≤ 0.005 →
      (positionUpdate q s).runMetrics.distanceKm = s.runMetrics.distanceKm ∧
      (positionUpdate q s).runMetrics.path = s.runMetrics.path ∧
      (positionUpdate q s).lastLocation = s.lastLocation) ∧
    (0.005 < calculateDistance c.latitude c.longitude q.latitude q.longitude →
      (positionUpdate q s).runMetrics.distanceKm =
        s.runMetrics.distanceKm +
          calculateDistance c.latitude c.longitude q.latitude q.longitude ∧
      (positionUpdate q s).runMetrics.path = s.runMetrics.path ++ [q] ∧
      (positionUpdate q s).lastLocation = some q) := by
  constructor
  · intro hle
    simp only [positionUpdate, h]
    rw [if_neg (not_lt.mpr hle)]
    exact ⟨rfl, rfl, rfl⟩
  · intro hgt
    simp only [positionUpdate, h]
    rw [if_pos hgt]
    exact ⟨rfl, rfl, rfl⟩

/-- Witness for the amended C1 at a concrete input: a repeated fix at the
seeded position (distance 0 ≤ 0.005) leaves the accumulated distance
unchanged. -/
theorem C1_noise_filter_amended_witness :
    (positionUpdate ⟨0, 0⟩ (startTracking (some ⟨0, 0⟩)
        (initialState emptyStore))).runMetrics.distanceKm =
      (startTracking (some ⟨0, 0⟩)
        (initialState emptyStore)).runMetrics.distanceKm := by
  have h := C1_noise_filter_amended
    (startTracking (some ⟨0, 0⟩) (initialState emptyStore)) ⟨0, 0⟩ ⟨0, 0⟩ rfl
  exact (h.1 (by rw [calculateDistance_self]; norm_num)).1

/-- C2: a timer tick adds exactly one second and recomputes the pace from the
current distance and the new elapsed time; five ticks after starting a
session, with no position fixes, give 5 elapsed seconds, zero distance, and
the `"--:--"` pace sentinel. -/
theorem C2_timer_tick :
    (∀ s : TrackerState,
      (timerTick s).runMetrics.elapsedTimeSeconds =
        s.runMetrics.elapsedTimeSeconds + 1 ∧
      (timerTick s).runMetrics.currentPace =
        calculatePace s.runMetrics.distanceKm
          (s.runMetrics.elapsedTimeSeconds + 1)) ∧
    ∀ (uc : Option Coordinates) (s0 : TrackerState),
      (timerTick (timerTick (timerTick (timerTick (timerTick
          (startTracking uc s0)))))).runMetrics.elapsedTimeSeconds = 5 ∧
      (timerTick (timerTick (timerTick (timerTick (timerTick
          (startTracking uc s0)))))).runMetrics.distanceKm = 0 ∧
      (timerTick (timerTick (timerTick (timerTick (timerTick
          (startTracking uc s0)))))).runMetrics.currentPace = "--:--" := by
  refine ⟨fun s => ⟨rfl, rfl⟩, fun uc s0 => ⟨?_, ?_, ?_⟩⟩
  · simp [timerTick, startTracking]
  · simp [timerTick, startTracking]
  · simp [timerTick, startTracking, calculatePace]

/-- C5: `startTracking` establishes the session invariant and every tracker
operation preserves it: a timer tick and a stop leave distance and path
unchanged, a position update never decreases `distanceKm` and only appends to
`path`, and the path never contains two consecutive points whose computed
haversine distance is below the 0.005 km noise threshold. -/
theorem C5_tracker_invariants (s : TrackerState) (uc : Option Coordinates)
    (q : Coordinates) (now : ℕ) :
    SessionInv (startTracking uc s) ∧
    (SessionInv s →
      (SessionInv (timerTick s) ∧
        (timerTick s).runMetrics.distanceKm = s.runMetrics.distanceKm ∧
        (timerTick s).runMetrics.path = s.runMetrics.path) ∧
      (SessionInv (positionUpdate q s) ∧
        s.runMetrics.distanceKm ≤ (positionUpdate q s).runMetrics.distanceKm ∧
        ∃ t, (positionUpdate q s).runMetrics.path = s.runMetrics.path ++ t) ∧
      (SessionInv (stopTracking now s) ∧
        (stopTracking now s).runMetrics = s.runMetrics) ∧
      List.Chain' (fun a b => ¬ calculateDistance a.latitude a.longitude
        b.latitude b.longitude < 0.005) s.runMetrics.path) := by
  refine ⟨sessionInv_start uc s, fun h => ⟨⟨sessionInv_tick s h, rfl, rfl⟩,
    positionUpdate_cases q s h,
    ⟨sessionInv_stop now s h, (stopTracking_metrics now s).1⟩, ?_⟩⟩
  exact h.2.2.imp fun a b hab => not_lt.mpr (le_of_lt hab)

/-- Witness for C5: the invariant established by a concrete start discharges
the hypothesis, and a tick on that state leaves the distance unchanged. -/
theorem C5_tracker_invariants_witness :
    (timerTick (startTracking (some ⟨0, 0⟩)
        (initialState emptyStore))).runMetrics.distanceKm =
      (startTracking (some ⟨0, 0⟩)
        (initialState emptyStore)).runMetrics.distanceKm := by
  have h0 := (C5_tracker_invariants (initialState emptyStore)
    (some ⟨0, 0⟩) ⟨0, 0⟩ 0).1
  exact (((C5_tracker_invariants
    (startTracking (some ⟨0, 0⟩) (initialState emptyStore))
    none ⟨0, 0⟩ 0).2 h0).1).2.1

lemma save_append_entry (now : ℕ) (s : TrackerState) (l : List RunHistoryEntry)
    (hnz : ¬(s.runMetrics.distanceKm = 0 ∧ s.runMetrics.elapsedTimeSeconds = 0))
    (hr : readHistory s.store = Except.ok l)
    (hw : s.store.writeFails = false) :
    (saveRunToHistory now s).store.contents =
      some (some (l ++ [mkHistoryEntry now s])) ∧
    (saveRunToHistory now s).store.writeFails = false := by
  unfold saveRunToHistory
  rw [if_neg hnz, hr]
  unfold writeHistory
  rw [hw]
  exact ⟨rfl, rfl⟩

lemma sampleRun_nonzero :
    ¬(sampleRun.runMetrics.distanceKm = 0 ∧
      sampleRun.runMetrics.elapsedTimeSeconds = 0) := by
  intro hc
  have h := hc.2
  simp [sampleRun, timerTick, startTracking, initialState] at h

/-- C3: stopping while idle, or stopping a session whose metrics show zero
distance and zero elapsed time, persists no new history entry; stopping a
tracking session with nonzero distance or nonzero elapsed time over a healthy
store appends exactly one new entry to the persisted collection. -/
theorem C3_stop_persistence (s : TrackerState) (now : ℕ) :
    (s.isTracking = false → (stopTracking now s).store = s.store) ∧
    (s.runMetrics.distanceKm = 0 ∧ s.runMetrics.elapsedTimeSeconds = 0 →
      (stopTracking now s).store = s.store) ∧
    (s.isTracking = true →
      ¬(s.runMetrics.distanceKm = 0 ∧ s.runMetrics.elapsedTimeSeconds = 0) →
      ∀ l, readHistory s.store = Except.ok l → s.store.writeFails = false →
        (stopTracking now s).store.contents =
          some (some (l ++ [mkHistoryEntry now s]))) := by
  refine ⟨fun hidle => ?_, fun hzero => ?_, fun ht hnz l hr hw =>
    stop_append_entry now s l ht hnz hr hw⟩
  · unfold stopTracking
    rw [if_neg (by rw [hidle]; exact Bool.false_ne_true)]
  · unfold stopTracking
    split
    · show (saveRunToHistory now s).store = s.store
      unfold saveRunToHistory
      rw [if_pos hzero]
    · rfl

/-- Witness for C3: stopping the one-tick sample session over the empty store
persists exactly its single entry. -/
theorem C3_stop_persistence_witness :
    (stopTracking 7 sampleRun).store.contents =
      some (some [mkHistoryEntry 7 sampleRun]) := by
  have h := (C3_stop_persistence sampleRun 7).2.2 rfl
    sampleRun_nonzero [] rfl rfl
  simpa using h

/-- C4, counterexample: stopping the sample session persists one entry whose
metrics snapshot still has `isTracking = true`, not `false` — `stopTracking`
clears only the component-level flag and copies `runMetrics` (whose own
`isTracking` was set at start and never reset) into the entry. -/
theorem C4_counterexample :
    (stopTracking 42 sampleRun).store.contents =
      some (some [mkHistoryEntry 42 sampleRun]) ∧
    (mkHistoryEntry 42 sampleRun).metrics.isTracking = true ∧
    (mkHistoryEntry 42 sampleRun).metrics.isTracking ≠ false := by
  refine ⟨?_, ?_, ?_⟩
  · have h := stop_append_entry 42 sampleRun [] rfl sampleRun_nonzero rfl rfl
    simpa using h
  · rfl
  · simp [mkHistoryEntry, sampleRun, timerTick, startTracking, initialState]

/-- C4, amended: the metrics snapshot frozen into a persisted entry at stop
has `isTracking = true`: `startTracking` sets the metrics' own flag to true,
ticks and fixes preserve it, and `stopTracking` copies the metrics unchanged
into the entry, clearing only the component-level flag. -/
theorem C4_persisted_isTracking (s : TrackerState) (now : ℕ)
    (h : SessionReach s) :
    (mkHistoryEntry now s).metrics.isTracking = true ∧
    (¬(s.runMetrics.distanceKm = 0 ∧ s.runMetrics.elapsedTimeSeconds = 0) →
      ∀ l, readHistory s.store = Except.ok l → s.store.writeFails = false →
        (stopTracking now s).store.contents =
          some (some (l ++ [mkHistoryEntry now s]))) :=
  ⟨(sessionReach_flags h).1, fun hnz l hr hw =>
    stop_append_entry now s l (sessionReach_flags h).2 hnz hr hw⟩

/-- Witness for the amended C4 at a concrete reachable session state. -/
theorem C4_persisted_isTracking_witness :
    (mkHistoryEntry 3 sampleRun).metrics.isTracking = true :=
  (C4_persisted_isTracking sampleRun 3
    (SessionReach.tick
      (SessionReach.start (some ⟨0, 0⟩) (initialState emptyStore)))).1

/-- C7: when the store is unreadable (corrupt contents) or unwritable, the
error is caught inside `saveRunToHistory` — both the save and the whole
session-stop flow return normally, with the persisted collection unchanged
and the new entry not persisted. -/
theorem C7_save_error_contained (s : TrackerState) (now : ℕ)
    (h : readHistory s.store = Except.error () ∨ s.store.writeFails = true) :
    (saveRunToHistory now s).store = s.store ∧
    (stopTracking now s).store = s.store := by
  refine ⟨saveRunToHistory_store_error now s h, ?_⟩
  unfold stopTracking
  split
  · show (saveRunToHistory now s).store = s.store
    exact saveRunToHistory_store_error now s h
  · rfl

/-- Witness for C7 on a store with unparseable contents. -/
theorem C7_save_error_contained_witness :
    (saveRunToHistory 0 (initialState ⟨some none, false⟩)).store =
      (initialState ⟨some none, false⟩).store :=
  (C7_save_error_contained (initialState ⟨some none, false⟩) 0 (Or.inl rfl)).1

/-- C10, counterexample: two distinct save operations that read the same
`Date.now()` millisecond (here both 1000) persist two entries with the same
time-derived id, so the ids of distinct saves need not differ. -/
theorem C10_counterexample :
    (mkHistoryEntry 1000 sampleRun).id =
      (mkHistoryEntry 1000 (saveRunToHistory 1000 sampleRun)).id ∧
    (saveRunToHistory 1000 (saveRunToHistory 1000 sampleRun)).store.contents =
      some (some [mkHistoryEntry 1000 sampleRun,
        mkHistoryEntry 1000 (saveRunToHistory 1000 sampleRun)]) := by
  refine ⟨rfl, ?_⟩
  have h1 := save_append_entry 1000 sampleRun [] sampleRun_nonzero rfl rfl
  have hnz2 : ¬((saveRunToHistory 1000 sampleRun).runMetrics.distanceKm = 0 ∧
      (saveRunToHistory 1000 sampleRun).runMetrics.elapsedTimeSeconds = 0) := by
    rw [(saveRunToHistory_parts 1000 sampleRun).1]
    exact sampleRun_nonzero
  have hr2 : readHistory (saveRunToHistory 1000 sampleRun).store =
      Except.ok [mkHistoryEntry 1000 sampleRun] := by
    unfold readHistory
    rw [h1.1]
    simp
  have h2 := save_append_entry 1000 (saveRunToHistory 1000 sampleRun)
    [mkHistoryEntry 1000 sampleRun] hnz2 hr2 h1.2
  simpa using h2.1

/-- C10, amended: ids are the decimal string of the save-time `Date.now()`
value, so any two saves whose timestamps differ get different ids (uniqueness
holds exactly up to the millisecond clock). -/
theorem C10_id_time_derived (n1 n2 : ℕ) (s1 s2 : TrackerState) (h : n1 ≠ n2) :
    (mkHistoryEntry n1 s1).id ≠ (mkHistoryEntry n2 s2).id := by
  intro hc
  exact h (natRepr_injective n1 n2 hc)

/-- Witness for the amended C10 at distinct concrete timestamps. -/
theorem C10_id_time_derived_witness :
    (mkHistoryEntry 0 (initialState emptyStore)).id ≠
      (mkHistoryEntry 1 (initialState emptyStore)).id :=
  C10_id_time_derived 0 1 (initialState emptyStore) (initialState emptyStore)
    (by norm_num)

/-- C6: `loadHistory` returns the empty list when the store is missing,
unparseable, or empty; otherwise a permutation of the persisted entries
sorted newest-first by date; and after two saves over the empty store it
returns exactly those two entries, newest first. -/
theorem C6_load_history :
    (∀ st : Store, st.contents = none → loadHistory st = []) ∧
    (∀ st : Store, st.contents = some none → loadHistory st = []) ∧
    (∀ st : Store, st.contents = some (some []) → loadHistory st = []) ∧
    (∀ (st : Store) (l : List RunHistoryEntry), st.contents = some (some l) →
      (loadHistory st).Perm l ∧ List.Sorted newestFirst (loadHistory st)) ∧
    loadHistory (saveRunToHistory 200 (saveRunToHistory 100 sampleRun)).store =
      [mkHistoryEntry 200 (saveRunToHistory 100 sampleRun),
        mkHistoryEntry 100 sampleRun] := by
  refine ⟨fun st h => by simp [loadHistory, h],
    fun st h => by simp [loadHistory, h],
    fun st h => by simp [loadHistory, h, List.insertionSort],
    fun st l h => ?_, ?_⟩
  · have hld : loadHistory st = List.insertionSort newestFirst l := by
      simp [loadHistory, h]
    rw [hld]
    exact ⟨List.perm_insertionSort newestFirst l,
      List.sorted_insertionSort newestFirst l⟩
  · have h1 := save_append_entry 100 sampleRun [] sampleRun_nonzero rfl rfl
    have hnz2 : ¬((saveRunToHistory 100 sampleRun).runMetrics.distanceKm = 0 ∧
        (saveRunToHistory 100 sampleRun).runMetrics.elapsedTimeSeconds = 0) := by
      rw [(saveRunToHistory_parts 100 sampleRun).1]
      exact sampleRun_nonzero
    have hr2 : readHistory (saveRunToHistory 100 sampleRun).store =
        Except.ok [mkHistoryEntry 100 sampleRun] := by
      unfold readHistory
      rw [h1.1]
      simp
    have h2 := save_append_entry 200 (saveRunToHistory 100 sampleRun)
      [mkHistoryEntry 100 sampleRun] hnz2 hr2 h1.2
    have hld : loadHistory
        (saveRunToHistory 200 (saveRunToHistory 100 sampleRun)).store =
      List.insertionSort newestFirst ([mkHistoryEntry 100 sampleRun] ++
        [mkHistoryEntry 200 (saveRunToHistory 100 sampleRun)]) := by
      unfold loadHistory
      rw [h2.1]
    rw [hld]
    simp [List.insertionSort, List.orderedInsert, newestFirst, mkHistoryEntry]

/-- Witness for C6: a missing store key loads as the empty history. -/
theorem C6_load_history_witness : loadHistory emptyStore = [] :=
  C6_load_history.1 emptyStore rfl
